/-
Verification of the piNAS dashboard core (Bruteforce-Group/piNAS) against
its natural-language specification.

The definitions below are a shallow embedding of the Python source under
src/docs/ (masterpiece-dashboard.py, redesigned-dashboard.py,
new-dashboard.py).  Python floats are modelled as exact rationals (ℚ),
Python `int(...)` truncation on non-negative values as `Int.floor`, the
`collections.deque(maxlen=N)` ring buffers as lists with an explicit
evict-then-append step, and `try/except` blocks as computations in the
`Except` monad whose errors the enclosing handler converts to `none`.
-/
import Mathlib

set_option maxHeartbeats 1000000

/-! Bounded history buffer

`masterpiece-dashboard.py` lines 47-51:
`HISTORY_SIZE = 100`, `cpu_history = deque(maxlen=HISTORY_SIZE)`, etc.
A CPython `deque(maxlen=c)` with `c ≥ 1` appends on the right and, when
already holding `c` elements, first discards the leftmost (oldest)
element.  `push` is that append step; `pushAll` folds a whole sequence of
`append` calls (as done once per poll tick in `main`, lines 1028-1031);
the buffer itself, read in insertion order, is its own snapshot. -/

/-- One `deque.append`: if the buffer is below capacity the value is
appended, otherwise the oldest (leftmost) element is evicted first.
Faithful to CPython `deque(maxlen=c)` for `c ≥ 1`. -/
def push {α : Type} (c : Nat) (l : List α) (v : α) : List α :=
  if l.length < c then l ++ [v] else l.drop 1 ++ [v]

/-- Fold `push` over a whole sequence of pushed values, oldest first. -/
def pushAll {α : Type} (c : Nat) (l : List α) (vs : List α) : List α :=
  vs.foldl (push c) l

/-- The last `min c (length l)` elements of `l`, in order. -/
def lastN {α : Type} (c : Nat) (l : List α) : List α :=
  l.drop (l.length - c)

theorem lastN_length {α : Type} (c : Nat) (l : List α) :
    (lastN c l).length = min c l.length := by
  simp [lastN]
  omega

theorem push_lastN {α : Type} (c : Nat) (hc : 1 ≤ c) (l : List α) (v : α) :
    push c (lastN c l) v = lastN c (l ++ [v]) := by
  by_cases h : l.length < c
  · have h0 : l.length - c = 0 := by omega
    have h1 : l.length + 1 - c = 0 := by omega
    simp [push, lastN, h0, h1, lastN_length]
    omega
  · have hnot : ¬ l.length - (l.length - c) < c := by omega
    have h2 : l.length + 1 - c - l.length = 0 := by omega
    have h4 : l.length - c + 1 = l.length + 1 - c := by omega
    have h5 : 1 + (l.length - c) = l.length + 1 - c := by omega
    simp only [push, lastN, List.length_drop, List.drop_drop]
    rw [if_neg hnot, List.drop_append_eq_append_drop]
    simp [List.length_append, h2, h4, h5]

theorem pushAll_lastN {α : Type} (c : Nat) (hc : 1 ≤ c) (l vs : List α) :
    pushAll c (lastN c l) vs = lastN c (l ++ vs) := by
  induction vs generalizing l with
  | nil => simp [pushAll]
  | cons v vs ih =>
      have step : pushAll c (lastN c l) (v :: vs)
          = pushAll c (push c (lastN c l) v) vs := rfl
      rw [step, push_lastN c hc l v, ih (l ++ [v])]
      simp

theorem pushAll_nil_eq_lastN {α : Type} (c : Nat) (hc : 1 ≤ c) (vs : List α) :
    pushAll c [] vs = lastN c vs := by
  have h : lastN c ([] : List α) = [] := by simp [lastN]
  have := pushAll_lastN c hc ([] : List α) vs
  rw [h] at this
  simpa using this

/-- C1: for every capacity `c ≥ 1` and every sequence of pushed values,
the buffer after all pushes has length at most `c` and equals the most
recent `min c (number of pushes)` pushed values in push order (strict
FIFO, oldest evicted first); in particular pushing 10, 20, 30 into a
capacity-2 buffer yields `[20, 30]`, and pushing a 4th value 40 yields
`[30, 40]`. -/
theorem history_buffer_fifo (c : Nat) (hc : 1 ≤ c) (vs : List ℚ) :
    (pushAll c [] vs).length ≤ c ∧
    pushAll c [] vs = vs.drop (vs.length - c) ∧
    pushAll 2 [] [(10 : ℚ), 20, 30] = [20, 30] ∧
    pushAll 2 [] [(10 : ℚ), 20, 30, 40] = [30, 40] := by
  refine ⟨?_, ?_, rfl, rfl⟩
  · rw [pushAll_nil_eq_lastN c hc, lastN_length]; omega
  · rw [pushAll_nil_eq_lastN c hc]; rfl

/-- Witness for `history_buffer_fifo` at capacity 2 and pushes
`[10, 20, 30]`. -/
theorem history_buffer_fifo_witness :
    (pushAll 2 [] [(10 : ℚ), 20, 30]).length ≤ 2 ∧
    pushAll 2 [] [(10 : ℚ), 20, 30]
      = ([(10 : ℚ), 20, 30]).drop ([(10 : ℚ), 20, 30].length - 2) ∧
    pushAll 2 [] [(10 : ℚ), 20, 30] = [20, 30] ∧
    pushAll 2 [] [(10 : ℚ), 20, 30, 40] = [30, 40] :=
  history_buffer_fifo 2 (by decide) [(10 : ℚ), 20, 30]

/-! UI state, touch debounce and screen navigation

`masterpiece-dashboard.py` lines 54-57:
`current_screen = 0`, `max_screens = 3`, `last_touch_time = 0`,
`touch_debounce = 0.2`; and `handle_touch` (lines 732-741), which drops a
touch arriving less than `touch_debounce` seconds after the last accepted
one and otherwise records the time and cycles the screen. -/

def max_screens : Nat := 3

/-- Debounce interval `touch_debounce = 0.2` (seconds), modelled as the
exact rational. -/
def touch_debounce : ℚ := 1 / 5

structure UIState where
  currentScreen : Nat
  lastTouchTime : ℚ
  deriving DecidableEq

/-- Module-level initial UI state: `current_screen = 0`,
`last_touch_time = 0`. -/
def initialUIState : UIState := ⟨0, 0⟩

/-- Touch handler `handle_touch(x, y, drives)` at wall-clock time `t`
(the source reads `time.time()`); the coordinates and the drive list are
received and ignored by the body. -/
def handle_touch {δ : Type} (_x _y : ℤ) (_drives : List δ) (t : ℚ)
    (s : UIState) : UIState :=
  if t - s.lastTouchTime < touch_debounce then s
  else ⟨(s.currentScreen + 1) % max_screens, t⟩

theorem handle_touch_accept {δ : Type} (x y : ℤ) (drives : List δ) (t : ℚ)
    (s : UIState) (h : touch_debounce ≤ t - s.lastTouchTime) :
    handle_touch x y drives t s
      = ⟨(s.currentScreen + 1) % max_screens, t⟩ := by
  simp only [handle_touch]
  rw [if_neg (by rw [not_lt]; linarith)]

theorem handle_touch_drop {δ : Type} (x y : ℤ) (drives : List δ) (t : ℚ)
    (s : UIState) (h : t - s.lastTouchTime < touch_debounce) :
    handle_touch x y drives t s = s := by
  simp only [handle_touch]
  rw [if_pos h]

/-- C4 counterexample: with `last_touch_time = 0`, a touch arriving at
`t = 0.2` — elapsed time exactly equal to, hence not exceeding, the
debounce interval — is nevertheless accepted (the state changes). -/
theorem debounce_boundary_counterexample :
    handle_touch 0 0 ([] : List ℚ) (1 / 5) initialUIState ≠ initialUIState ∧
    ¬ ((1 / 5 : ℚ) - initialUIState.lastTouchTime > touch_debounce) := by
  constructor
  · have e : handle_touch 0 0 ([] : List ℚ) (1 / 5) initialUIState
        = ⟨1, 1 / 5⟩ := by
      rw [handle_touch_accept 0 0 ([] : List ℚ) (1 / 5) initialUIState
        (by norm_num [touch_debounce, initialUIState])]
      rfl
    rw [e]
    intro h
    have h1 : (1 : Nat) = 0 := congrArg UIState.currentScreen h
    exact one_ne_zero h1
  · norm_num [initialUIState, touch_debounce]

/-- C4 (amended): a touch within the debounce window of the last accepted
touch is dropped with the state (hence the current screen) unchanged; a
touch is accepted exactly when the elapsed time since the last accepted
touch is at least (not strictly greater than) the debounce interval. -/
theorem debounce_drop_second (s : UIState) (t₁ t₂ : ℚ) (x y : ℤ)
    (drives : List ℚ)
    (h₁ : touch_debounce ≤ t₁ - s.lastTouchTime)
    (h₂ : t₂ - t₁ < touch_debounce) :
    (handle_touch x y drives t₁ s).currentScreen
        = (s.currentScreen + 1) % max_screens ∧
    handle_touch x y drives t₂ (handle_touch x y drives t₁ s)
        = handle_touch x y drives t₁ s ∧
    (∀ (t : ℚ) (s' : UIState),
      handle_touch x y drives t s' ≠ s'
        ↔ touch_debounce ≤ t - s'.lastTouchTime) := by
  have hd : (0 : ℚ) < touch_debounce := by norm_num [touch_debounce]
  have e1 : handle_touch x y drives t₁ s
      = ⟨(s.currentScreen + 1) % max_screens, t₁⟩ :=
    handle_touch_accept x y drives t₁ s h₁
  refine ⟨by rw [e1], ?_, ?_⟩
  · rw [e1, handle_touch_drop x y drives t₂ _ (by exact h₂)]
  · intro t s'
    constructor
    · intro hne
      by_contra hlt
      push_neg at hlt
      exact hne (handle_touch_drop x y drives t s' hlt)
    · intro hge heq
      rw [handle_touch_accept x y drives t s' hge] at heq
      have ht : t = s'.lastTouchTime := congrArg UIState.lastTouchTime heq
      rw [ht] at hge
      linarith

/-- Witness for `debounce_drop_second`: first touch at `t = 1` accepted
from the initial state, second at `t = 1.1` dropped. -/
theorem debounce_drop_second_witness :
    (handle_touch 0 0 ([] : List ℚ) 1 initialUIState).currentScreen
        = (initialUIState.currentScreen + 1) % max_screens ∧
    handle_touch 0 0 ([] : List ℚ) (11 / 10)
        (handle_touch 0 0 ([] : List ℚ) 1 initialUIState)
        = handle_touch 0 0 ([] : List ℚ) 1 initialUIState ∧
    (∀ (t : ℚ) (s' : UIState),
      handle_touch 0 0 ([] : List ℚ) t s' ≠ s'
        ↔ touch_debounce ≤ t - s'.lastTouchTime) :=
  debounce_drop_second initialUIState 1 (11 / 10) 0 0 []
    (by norm_num [touch_debounce, initialUIState])
    (by norm_num [touch_debounce])

/-- C7: the navigation state machine starts at Overview (index 0) and
each accepted (debounced) touch advances to `(current + 1) % max_screens`
regardless of coordinates; with the 3-screen configuration the first
accepted touch reaches Drives (1), the second Stats (2), and the third
wraps back to Overview (0). -/
theorem nav_cycle (t₁ t₂ t₃ : ℚ) (x y : ℤ) (drives : List ℚ)
    (h₁ : touch_debounce ≤ t₁ - initialUIState.lastTouchTime)
    (h₂ : touch_debounce ≤ t₂ - t₁)
    (h₃ : touch_debounce ≤ t₃ - t₂) :
    initialUIState.currentScreen = 0 ∧ max_screens = 3 ∧
    (handle_touch x y drives t₁ initialUIState).currentScreen = 1 ∧
    (handle_touch x y drives t₂
        (handle_touch x y drives t₁ initialUIState)).currentScreen = 2 ∧
    (handle_touch x y drives t₃ (handle_touch x y drives t₂
        (handle_touch x y drives t₁ initialUIState))).currentScreen = 0 := by
  have e1 : handle_touch x y drives t₁ initialUIState = ⟨1, t₁⟩ := by
    rw [handle_touch_accept x y drives t₁ initialUIState h₁]
    rfl
  have e2 : handle_touch x y drives t₂ (⟨1, t₁⟩ : UIState) = ⟨2, t₂⟩ := by
    rw [handle_touch_accept x y drives t₂ _ (by exact h₂)]
    rfl
  have e3 : handle_touch x y drives t₃ (⟨2, t₂⟩ : UIState) = ⟨0, t₃⟩ := by
    rw [handle_touch_accept x y drives t₃ _ (by exact h₃)]
    simp [max_screens]
  rw [e1, e2, e3]
  exact ⟨rfl, rfl, rfl, rfl, rfl⟩

/-- Witness for `nav_cycle` with accepted touches at times 1, 2, 3. -/
theorem nav_cycle_witness :
    initialUIState.currentScreen = 0 ∧ max_screens = 3 ∧
    (handle_touch 0 0 ([] : List ℚ) 1 initialUIState).currentScreen = 1 ∧
    (handle_touch 0 0 ([] : List ℚ) 2
        (handle_touch 0 0 ([] : List ℚ) 1 initialUIState)).currentScreen = 2 ∧
    (handle_touch 0 0 ([] : List ℚ) 3 (handle_touch 0 0 ([] : List ℚ) 2
        (handle_touch 0 0 ([] : List ℚ) 1 initialUIState))).currentScreen = 0 :=
  nav_cycle 1 2 3 0 0 []
    (by norm_num [touch_debounce, initialUIState])
    (by norm_num [touch_debounce])
    (by norm_num [touch_debounce])

/-! Color palette and the usage-bar tier policy

Palette constants from `masterpiece-dashboard.py` (lines 71, 88-91) and
`redesigned-dashboard.py` (lines 67-70).  `Color` is an RGB triple. -/

abbrev Color := ℤ × ℤ × ℤ

def STATUS_WARNING : Color := (255, 180, 0)

def STATUS_ERROR : Color := (255, 60, 80)

/-- Constant `GRADIENT_INFO[1]` of the masterpiece palette. -/
def GRADIENT_INFO_hi : Color := (100, 200, 255)

def COLOR_WARNING : Color := (255, 200, 0)

def COLOR_ERROR : Color := (255, 50, 50)

def COLOR_INFO : Color := (100, 150, 255)

/-- Usage-bar fill color in `masterpiece-dashboard.py` `draw_drives_screen`
(line 636): `STATUS_ERROR if used_percent > 90 else STATUS_WARNING if
used_percent > 75 else GRADIENT_INFO[1]`. -/
def drives_screen_bar_color (used_percent : ℚ) : Color :=
  if used_percent > 90 then STATUS_ERROR
  else if used_percent > 75 then STATUS_WARNING
  else GRADIENT_INFO_hi

/-- The same conditional expression in `masterpiece-dashboard.py`
`draw_overview_screen` (line 553). -/
def overview_bar_color (used_percent : ℚ) : Color :=
  if used_percent > 90 then STATUS_ERROR
  else if used_percent > 75 then STATUS_WARNING
  else GRADIENT_INFO_hi

/-- Usage-bar fill color in `redesigned-dashboard.py` (line 426 in
`draw_overview_screen`, line 495 in `draw_drives_screen`):
`COLOR_ERROR if used_percent > 90 else COLOR_WARNING if used_percent > 75
else COLOR_INFO`. -/
def redesigned_bar_color (used_percent : ℚ) : Color :=
  if used_percent > 90 then COLOR_ERROR
  else if used_percent > 75 then COLOR_WARNING
  else COLOR_INFO

/-- The three-tier threshold policy abstracted over the palette. -/
def tier_color (err warn info : Color) (p : ℚ) : Color :=
  if p > 90 then err else if p > 75 then warn else info

/-- C5 counterexample: at `used_percent` exactly 90 the code renders the
warning tier (the thresholds are strict `>`), not the error tier the
claim requires for `used_percent ≥ 90`; likewise exactly 75 renders the
info tier, not the warning tier. -/
theorem usage_tier_boundary_counterexample :
    drives_screen_bar_color 90 = STATUS_WARNING ∧
    drives_screen_bar_color 90 ≠ STATUS_ERROR ∧
    drives_screen_bar_color 75 = GRADIENT_INFO_hi ∧
    drives_screen_bar_color 75 ≠ STATUS_WARNING := by
  have h90 : drives_screen_bar_color 90 = STATUS_WARNING := by
    rw [drives_screen_bar_color, if_neg (by norm_num), if_pos (by norm_num)]
  have h75 : drives_screen_bar_color 75 = GRADIENT_INFO_hi := by
    rw [drives_screen_bar_color, if_neg (by norm_num), if_neg (by norm_num)]
  refine ⟨h90, ?_, h75, ?_⟩
  · rw [h90]; decide
  · rw [h75]; decide

/-- C5 (amended): the usage-bar fill color follows a single three-tier
policy with strict thresholds, applied uniformly at every usage-bar site:
`used_percent > 90` renders the error tier, `75 < used_percent ≤ 90` the
warning tier, and `used_percent ≤ 75` the normal/info tier; a drive at
92 renders the error tier, 80 the warning tier, 50 the normal tier. -/
theorem usage_tier_policy (p : ℚ) :
    (90 < p → drives_screen_bar_color p = STATUS_ERROR) ∧
    (75 < p → p ≤ 90 → drives_screen_bar_color p = STATUS_WARNING) ∧
    (p ≤ 75 → drives_screen_bar_color p = GRADIENT_INFO_hi) ∧
    drives_screen_bar_color p
      = tier_color STATUS_ERROR STATUS_WARNING GRADIENT_INFO_hi p ∧
    overview_bar_color p
      = tier_color STATUS_ERROR STATUS_WARNING GRADIENT_INFO_hi p ∧
    redesigned_bar_color p = tier_color COLOR_ERROR COLOR_WARNING COLOR_INFO p ∧
    (90 < p → redesigned_bar_color p = COLOR_ERROR) ∧
    (75 < p → p ≤ 90 → redesigned_bar_color p = COLOR_WARNING) ∧
    (p ≤ 75 → redesigned_bar_color p = COLOR_INFO) ∧
    drives_screen_bar_color 92 = STATUS_ERROR ∧
    drives_screen_bar_color 80 = STATUS_WARNING ∧
    drives_screen_bar_color 50 = GRADIENT_INFO_hi := by
  refine ⟨?_, ?_, ?_, rfl, rfl, rfl, ?_, ?_, ?_, ?_, ?_, ?_⟩
  · intro h
    rw [drives_screen_bar_color, if_pos h]
  · intro h1 h2
    rw [drives_screen_bar_color, if_neg (by linarith), if_pos h1]
  · intro h
    rw [drives_screen_bar_color, if_neg (by linarith), if_neg (by linarith)]
  · intro h
    rw [redesigned_bar_color, if_pos h]
  · intro h1 h2
    rw [redesigned_bar_color, if_neg (by linarith), if_pos h1]
  · intro h
    rw [redesigned_bar_color, if_neg (by linarith), if_neg (by linarith)]
  · rw [drives_screen_bar_color, if_pos (by norm_num)]
  · rw [drives_screen_bar_color, if_neg (by norm_num), if_pos (by norm_num)]
  · rw [drives_screen_bar_color, if_neg (by norm_num), if_neg (by norm_num)]

/-- Witness for `usage_tier_policy` at `used_percent = 92`. -/
theorem usage_tier_policy_witness :
    drives_screen_bar_color 92 = STATUS_ERROR ∧
    redesigned_bar_color 92 = COLOR_ERROR :=
  ⟨(usage_tier_policy 92).1 (by norm_num),
   (usage_tier_policy 92).2.2.2.2.2.2.1 (by norm_num)⟩

/-! Drawing operations and the circular progress indicator

A frame fragment is a list of PIL draw calls, recorded as data.  Angles
are in degrees; in PIL's screen coordinates (y axis pointing down)
`draw.arc` sweeps from the start angle to the end angle clockwise, with
0° at 3 o'clock and -90° at the top. -/

inductive DrawOp where
  | line (x1 y1 x2 y2 : ℤ) (color : Color) (width : ℤ)
  | rect (x1 y1 x2 y2 : ℤ) (color : Color)
  | arc (x1 y1 x2 y2 : ℤ) (startAng endAng : ℤ) (color : Color) (width : ℤ)
  | text (x y : ℤ) (s : String) (color : Color)
  deriving DecidableEq

/-- Function `draw_circular_progress` (`masterpiece-dashboard.py` lines 362-370):
a full background ring, then — only when `percent > 0` — a foreground
arc from -90° to `-90 + int(360 * percent / 100)`.  Python `int()`
truncates toward zero; the branch guard makes its argument positive, so
it is `Int.floor` here. -/
def draw_circular_progress (cx cy radius : ℤ) (percent : ℚ)
    (color bg_color : Color) (thickness : ℤ) : List DrawOp :=
  [DrawOp.arc (cx - radius) (cy - radius) (cx + radius) (cy + radius)
      0 360 bg_color thickness] ++
  (if 0 < percent then
    [DrawOp.arc (cx - radius) (cy - radius) (cx + radius) (cy + radius)
        (-90) (-90 + ⌊360 * percent / 100⌋) color thickness]
   else [])

/-- C6 counterexample: at `percent = 1` (inside `[0, 100]`) the code's
foreground arc sweeps `int(360 * 1 / 100) = 3` degrees, which is not the
claimed exact `360 × percent / 100 = 3.6` degrees. -/
theorem circular_progress_sweep_counterexample :
    draw_circular_progress 0 0 20 1 (255, 255, 255) (30, 30, 40) 6 =
      [DrawOp.arc (-20) (-20) 20 20 0 360 (30, 30, 40) 6,
       DrawOp.arc (-20) (-20) 20 20 (-90) (-87) (255, 255, 255) 6] ∧
    (((-87 : ℤ) - (-90) : ℚ) ≠ 360 * 1 / 100) := by
  constructor
  · have hfl : ⌊(360 : ℚ) * 1 / 100⌋ = 3 := by norm_num [Int.floor_eq_iff]
    rw [draw_circular_progress, if_pos (by norm_num), hfl]
    norm_num
  · norm_num

/-- C6 (amended): for `0 < percent ≤ 100` the indicator is a background
ring plus one foreground arc starting at the top (-90°) and proceeding
clockwise with sweep `⌊360 × percent / 100⌋` degrees — the ideal sweep
rounded down to a whole degree, within 1° below it; at `percent = 0` only
the background ring is drawn; at `percent = 25` the sweep is exactly 90°,
ending at 0° (the 3 o'clock position). -/
theorem circular_progress_amended (cx cy radius thickness : ℤ)
    (percent : ℚ) (c b : Color) (h0 : 0 < percent) (h1 : percent ≤ 100) :
    draw_circular_progress cx cy radius percent c b thickness =
      [DrawOp.arc (cx - radius) (cy - radius) (cx + radius) (cy + radius)
          0 360 b thickness,
       DrawOp.arc (cx - radius) (cy - radius) (cx + radius) (cy + radius)
          (-90) (-90 + ⌊360 * percent / 100⌋) c thickness] ∧
    ((⌊360 * percent / 100⌋ : ℚ) ≤ 360 * percent / 100) ∧
    (360 * percent / 100 - 1 < (⌊360 * percent / 100⌋ : ℚ)) ∧
    ⌊360 * percent / 100⌋ ≤ 360 ∧
    (draw_circular_progress cx cy radius 0 c b thickness =
      [DrawOp.arc (cx - radius) (cy - radius) (cx + radius) (cy + radius)
          0 360 b thickness]) ∧
    (percent = 25 → ⌊360 * percent / 100⌋ = 90 ∧
      (-90 : ℤ) + ⌊360 * percent / 100⌋ = 0) := by
  refine ⟨?_, Int.floor_le _, ?_, ?_, ?_, ?_⟩
  · rw [draw_circular_progress, if_pos h0]
    rfl
  · exact Int.sub_one_lt_floor _
  · have : (360 : ℚ) * percent / 100 ≤ 360 := by linarith
    calc ⌊360 * percent / 100⌋ ≤ ⌊(360 : ℚ)⌋ := Int.floor_le_floor this
    _ = 360 := by norm_num
  · rw [draw_circular_progress, if_neg (by norm_num)]
    rfl
  · intro h
    subst h
    constructor
    · norm_num [Int.floor_eq_iff]
    · norm_num [Int.floor_eq_iff]

/-- Witness for `circular_progress_amended` at `percent = 25`. -/
theorem circular_progress_amended_witness :
    draw_circular_progress 100 100 20 25 (255, 90, 120) (30, 30, 40) 4 =
      [DrawOp.arc 80 80 120 120 0 360 (30, 30, 40) 4,
       DrawOp.arc 80 80 120 120 (-90) (-90 + ⌊(360 : ℚ) * 25 / 100⌋)
          (255, 90, 120) 4] ∧
    ((⌊(360 : ℚ) * 25 / 100⌋ : ℚ) ≤ 360 * 25 / 100) ∧
    ((360 : ℚ) * 25 / 100 - 1 < (⌊(360 : ℚ) * 25 / 100⌋ : ℚ)) ∧
    ⌊(360 : ℚ) * 25 / 100⌋ ≤ 360 ∧
    (draw_circular_progress 100 100 20 0 (255, 90, 120)
        (30, 30, 40) 4 =
      [DrawOp.arc 80 80 120 120 0 360 (30, 30, 40) 4]) ∧
    ((25 : ℚ) = 25 → ⌊(360 : ℚ) * 25 / 100⌋ = 90 ∧
      (-90 : ℤ) + ⌊(360 : ℚ) * 25 / 100⌋ = 0) := by
  have h := circular_progress_amended 100 100 20 4 25 (255, 90, 120)
    (30, 30, 40) (by norm_num) (by norm_num)
  convert h using 3

/-! Touch calibrator

`map_touch(touch, driver)` from `masterpiece-dashboard.py` lines 243-270
(`redesigned-dashboard.py` lines 177-204 is textually identical).  The
driver tag is compared against the strings "STMPE610" and "XPT2046"; any
other tag (including `None` when no controller was detected) matches
neither branch, so the final `screen_x = max(0, min(WIDTH - 1, screen_x))`
reads a never-assigned local and raises `NameError`, which the enclosing
bare `except` converts to `None`.  Every sensor attribute access can also
raise (a transient bus error), modelled as `Except.error`. -/

def WIDTH : ℤ := 320

def HEIGHT : ℤ := 240

/-- The driver tag: the two recognised strings, or anything else. -/
inductive Driver where
  | stmpe610
  | xpt2046
  | unknown
  deriving DecidableEq

/-- One touch controller as `map_touch` sees it: each attribute read
either yields a value or raises.  `touched` and `readData` belong to the
STMPE610 interface, `touchPoint` to the XPT2046 interface (where a falsy
`touch_point` means no contact).  The source reads `touch.touch_point`
twice in the XPT2046 branch; the model assumes the property is stable
within the one call, so a single field stands for both reads. -/
structure Sensor where
  touched : Except Unit Bool
  readData : Except Unit (ℤ × ℤ × ℤ)
  touchPoint : Except Unit (Option (ℤ × ℤ))

/-- Normalization `max(0, min(1, (raw - lo) / (hi - lo)))`. -/
def calib_norm (lo hi : ℚ) (raw : ℤ) : ℚ :=
  max 0 (min 1 ((raw - lo) / (hi - lo)))

/-- From normalized coordinates to the clamped screen point:
`screen_x = int(y_norm * WIDTH)`, `screen_y = int((1.0 - x_norm) * HEIGHT)`,
then `max(0, min(W - 1, ·))` / `max(0, min(H - 1, ·))`.  `int()` truncates
toward zero; both arguments are non-negative here, so it is `Int.floor`. -/
def to_screen (x_norm y_norm : ℚ) : ℤ × ℤ :=
  (max 0 (min (WIDTH - 1) ⌊y_norm * 320⌋),
   max 0 (min (HEIGHT - 1) ⌊(1 - x_norm) * 240⌋))

/-- The body of `map_touch` inside the `try`: an early `return None` is
`.ok none`, an uncaught exception is `.error ()`; each attribute read
that raises propagates its error (the matches on `Except` spell out the
monadic bind). -/
def map_touch_body : Driver → Sensor → Except Unit (Option (ℤ × ℤ))
  | Driver.stmpe610, s =>
      match s.touched with
      | Except.error e => Except.error e
      | Except.ok t =>
          if t then
            match s.readData with
            | Except.error e => Except.error e
            | Except.ok (x_raw, y_raw, _z) =>
                Except.ok (some (to_screen (calib_norm 200 3800 x_raw)
                  (calib_norm 200 3800 y_raw)))
          else Except.ok none
  | Driver.xpt2046, s =>
      match s.touchPoint with
      | Except.error e => Except.error e
      | Except.ok none => Except.ok none
      | Except.ok (some (x_raw, y_raw)) =>
          Except.ok (some (to_screen (calib_norm 300 3800 x_raw)
            (calib_norm 300 3800 y_raw)))
  | Driver.unknown, _ =>
      -- neither branch assigned screen_x: NameError at the clamp line
      Except.error ()

/-- Function `map_touch`: the surrounding `try/except` turns any raised
error into the absent result. -/
def map_touch (d : Driver) (s : Sensor) : Option (ℤ × ℤ) :=
  match map_touch_body d s with
  | Except.ok r => r
  | Except.error _ => none

/-- The sensor reports contact under the given driver profile. -/
def reports_contact : Driver → Sensor → Prop
  | Driver.stmpe610, s => s.touched = Except.ok true
  | Driver.xpt2046, s => ∃ p, s.touchPoint = Except.ok (some p)
  | Driver.unknown, _ => False

/-- The sensor reports no contact under the given driver profile. -/
def reports_no_contact : Driver → Sensor → Prop
  | Driver.stmpe610, s => s.touched = Except.ok false
  | Driver.xpt2046, s => s.touchPoint = Except.ok none
  | Driver.unknown, _ => True

/-- Some sensor read relevant to the driver profile raises. -/
def read_raises : Driver → Sensor → Prop
  | Driver.stmpe610, s =>
      s.touched = Except.error () ∨ s.readData = Except.error ()
  | Driver.xpt2046, s => s.touchPoint = Except.error ()
  | Driver.unknown, _ => True

/-- C3: for every driver profile, `map_touch` returns the absent result —
never any coordinate point, in particular never `(0, 0)` — both when the
sensor reports no contact and when any sensor read error occurs; a point
is returned only when the sensor reports an actual touch. -/
theorem touch_absent_on_no_contact (d : Driver) (s : Sensor) :
    (reports_no_contact d s → map_touch d s = none) ∧
    (read_raises d s → map_touch d s = none) ∧
    (∀ p : ℤ × ℤ, map_touch d s = some p → reports_contact d s) := by
  cases d with
  | stmpe610 =>
      refine ⟨?_, ?_, ?_⟩
      · intro h
        simp only [reports_no_contact] at h
        simp [map_touch, map_touch_body, h]
      · intro h
        rcases h with h | h
        · simp [map_touch, map_touch_body, h]
        · cases ht : s.touched with
          | error e => simp [map_touch, map_touch_body, ht]
          | ok b =>
              cases b with
              | false => simp [map_touch, map_touch_body, ht]
              | true => simp [map_touch, map_touch_body, ht, h]
      · intro p hp
        cases ht : s.touched with
        | error e => simp [map_touch, map_touch_body, ht] at hp
        | ok b =>
            cases b with
            | false => simp [map_touch, map_touch_body, ht] at hp
            | true => exact ht
  | xpt2046 =>
      refine ⟨?_, ?_, ?_⟩
      · intro h
        simp only [reports_no_contact] at h
        simp [map_touch, map_touch_body, h]
      · intro h
        simp only [read_raises] at h
        simp [map_touch, map_touch_body, h]
      · intro p hp
        cases ht : s.touchPoint with
        | error e => simp [map_touch, map_touch_body, ht] at hp
        | ok tp =>
            cases tp with
            | none => simp [map_touch, map_touch_body, ht] at hp
            | some q => exact ⟨q, ht⟩
  | unknown =>
      exact ⟨fun _ => rfl, fun _ => rfl, fun p hp => by
        simp [map_touch, map_touch_body] at hp⟩

/-- Witness for `touch_absent_on_no_contact`: an STMPE610 sensor whose
`touched` property reads `False`. -/
theorem touch_absent_on_no_contact_witness :
    (reports_no_contact Driver.stmpe610
        ⟨Except.ok false, Except.ok (0, 0, 0), Except.ok none⟩ →
      map_touch Driver.stmpe610
        ⟨Except.ok false, Except.ok (0, 0, 0), Except.ok none⟩ = none) ∧
    (read_raises Driver.stmpe610
        ⟨Except.ok false, Except.ok (0, 0, 0), Except.ok none⟩ →
      map_touch Driver.stmpe610
        ⟨Except.ok false, Except.ok (0, 0, 0), Except.ok none⟩ = none) ∧
    (∀ p : ℤ × ℤ, map_touch Driver.stmpe610
        ⟨Except.ok false, Except.ok (0, 0, 0), Except.ok none⟩ = some p →
      reports_contact Driver.stmpe610
        ⟨Except.ok false, Except.ok (0, 0, 0), Except.ok none⟩) :=
  touch_absent_on_no_contact Driver.stmpe610
    ⟨Except.ok false, Except.ok (0, 0, 0), Except.ok none⟩

/-- C10: `map_touch` is total over the driver tag: for every sensor state
(including one that reports contact), when the driver tag is neither
"STMPE610" nor "XPT2046" — also the no-driver-detected case — the
function yields the absent result instead of propagating the `NameError`
raised at the read of the never-assigned screen coordinate. -/
theorem map_touch_unknown_driver_absent (s : Sensor) :
    map_touch Driver.unknown s = none ∧
    map_touch_body Driver.unknown s = Except.error () :=
  ⟨rfl, rfl⟩

/-! Frame composition and its hidden inputs

`draw_overview_screen` (`masterpiece-dashboard.py` lines 389-573) is
called with the current stats, version info, drive list and animation
phase — but its body additionally reads the wall clock
(`now = datetime.now()`, lines 427-434, rendered as "%H:%M" and "%d %b")
and, for the first listed drive, the live Samba share registry
(`drive.is_shared()`, a `smbstatus` subprocess call, lines 533-535).
The fragments below embed exactly those draw calls. -/

def TEXT_PRIMARY : Color := (255, 255, 255)

def TEXT_SECONDARY : Color := (160, 165, 180)

/-- Constant `GRADIENT_SUCCESS[1]` of the masterpiece palette. -/
def GRADIENT_SUCCESS_hi : Color := (0, 255, 180)

/-- The wall-clock reading `draw_overview_screen` makes via
`datetime.now()`: the fields consumed by "%H:%M" and "%d %b". -/
structure DateTime where
  hour : Nat
  minute : Nat
  day : Nat
  month : String
  deriving DecidableEq

/-- Two-digit zero padding, as CPython `strftime` produces for
`%H`, `%M` and `%d`. -/
def pad2 (n : Nat) : String :=
  if n < 10 then "0" ++ toString n else toString n

/-- Format `now.strftime("%H:%M")`. -/
def strftime_HM (t : DateTime) : String :=
  pad2 t.hour ++ ":" ++ pad2 t.minute

/-- Format `now.strftime("%d %b")`. -/
def strftime_d_b (t : DateTime) : String :=
  pad2 t.day ++ " " ++ t.month

/-- The draw calls of `draw_overview_screen` lines 427-435: the time at
(250, 8), the date at (252, 26) and the IP line at (28, 28).  `now` is
not one of the renderer's arguments — it is read from the system clock
inside the body. -/
def overview_clock_ops (now : DateTime) (ip : String) : List DrawOp :=
  [DrawOp.text 250 8 (strftime_HM now) TEXT_PRIMARY,
   DrawOp.text 252 26 (strftime_d_b now) TEXT_SECONDARY,
   DrawOp.text 28 28 ("IP " ++ ip) TEXT_SECONDARY]

/-- The draw call of `draw_overview_screen` lines 533-535: the first
drive's status square at (12, 213)-(18, 219), green when
`drive.is_shared()` — a live `smbstatus` query made during rendering —
reports the drive as shared and dark gray otherwise. -/
def drive_status_ops (shared_now : Bool) : List DrawOp :=
  [DrawOp.rect 12 213 18 219
    (if shared_now then GRADIENT_SUCCESS_hi else (60, 60, 70))]

/-- C2 counterexample: with every claimed input (metric sample,
histories, drive list, navigation state, animation phase) held fixed,
two compositions one minute apart — or one straddling a share-status
change — produce different draw calls, so the output is not
pixel-identical and the renderer is not a pure function of exactly the
claimed inputs. -/
theorem frame_composition_reads_clock_counterexample :
    overview_clock_ops ⟨12, 0, 5, "Jan"⟩ "192.168.1.7"
      ≠ overview_clock_ops ⟨12, 1, 5, "Jan"⟩ "192.168.1.7" ∧
    drive_status_ops true ≠ drive_status_ops false := by
  constructor
  · decide
  · decide

/-- C2 (amended): frame composition is deterministic once the hidden
inputs are also fixed: the rendered output depends on the wall clock only
through the displayed hour, minute, day and month fields, and on the
share registry only through the queried share flag — fixing those along
with the claimed inputs yields identical draw calls. -/
theorem frame_composition_deterministic (now now' : DateTime)
    (ip : String) (b b' : Bool)
    (hh : now.hour = now'.hour) (hm : now.minute = now'.minute)
    (hd : now.day = now'.day) (hmo : now.month = now'.month)
    (hb : b = b') :
    overview_clock_ops now ip = overview_clock_ops now' ip ∧
    drive_status_ops b = drive_status_ops b' := by
  constructor
  · simp [overview_clock_ops, strftime_HM, strftime_d_b, hh, hm, hd, hmo]
  · rw [hb]

/-- Witness for `frame_composition_deterministic` at noon on Jan 5 with
the share flag set. -/
theorem frame_composition_deterministic_witness :
    overview_clock_ops ⟨12, 0, 5, "Jan"⟩ "192.168.1.7"
      = overview_clock_ops ⟨12, 0, 5, "Jan"⟩ "192.168.1.7" ∧
    drive_status_ops true = drive_status_ops true :=
  frame_composition_deterministic ⟨12, 0, 5, "Jan"⟩ ⟨12, 0, 5, "Jan"⟩
    "192.168.1.7" true true rfl rfl rfl rfl rfl

/-! Boot animation sequencing

`draw_boot_animation` (`masterpiece-dashboard.py` lines 744-901) runs 90
frames with normalized progress `t = frame / frames` and three
time-partitioned phases (lines 772-789): spin-in for `t < 0.4`, constant
orbit for `t < 0.7`, merge/explode afterwards; the label fades in for
`t > 0.5` (lines 870-889) with `text_alpha = (t - 0.5) / 0.5` applied to
`GRADIENT_PRIMARY[1]`. -/

/-- Orbit radius of the blobs as a function of normalized progress. -/
def orbit_radius (t : ℚ) : ℚ :=
  if t < 2 / 5 then 80 * (1 - t / (2 / 5))
  else if t < 7 / 10 then 25
  else 25 * (1 - ((t - 7 / 10) / (3 / 10)) * (4 / 5))

/-- Base blob size (before the per-blob sinusoidal pulse factor, which
multiplies it and so preserves a zero size). -/
def blob_size (t : ℚ) : ℚ :=
  if t < 2 / 5 then 8 * (t / (2 / 5))
  else if t < 7 / 10 then 8 + 8 * ((t - 2 / 5) / (3 / 10))
  else 16 + 30 * ((t - 7 / 10) / (3 / 10))

/-- Constant `GRADIENT_PRIMARY[1]` of the masterpiece palette. -/
def GRADIENT_PRIMARY_hi : Color := (180, 100, 255)

/-- Label alpha: the text is drawn only when `t > 0.5`, with
`text_alpha = (t - 0.5) / 0.5`. -/
def boot_text_alpha (t : ℚ) : Option ℚ :=
  if t > 1 / 2 then some ((t - 1 / 2) / (1 / 2)) else none

/-- Label color `tuple(int(c * text_alpha) for c in GRADIENT_PRIMARY[1])`. -/
def boot_text_color (t : ℚ) : Option Color :=
  match boot_text_alpha t with
  | none => none
  | some a => some (⌊180 * a⌋, ⌊100 * a⌋, ⌊255 * a⌋)

/-- C8: at normalized progress `t = 0` the blobs sit at the maximum orbit
radius (80, the largest value the radius ever takes on `[0, 1]`) with
zero (minimal) base size; at `t = 1` the label is fully opaque (alpha 1,
rendering the full label color) and the orbit radius has collapsed to 5 —
an 80% contraction of the constant-phase orbit, far below the maximum. -/
theorem boot_sequence_endpoints (t : ℚ) (h0 : 0 ≤ t) (_h1 : t ≤ 1) :
    orbit_radius 0 = 80 ∧
    blob_size 0 = 0 ∧
    orbit_radius t ≤ 80 ∧
    0 ≤ blob_size t ∧
    boot_text_alpha 1 = some 1 ∧
    boot_text_color 1 = some GRADIENT_PRIMARY_hi ∧
    orbit_radius 1 = 5 ∧
    orbit_radius 1 < orbit_radius (1 / 2) := by
  have ha : boot_text_alpha 1 = some 1 := by
    rw [boot_text_alpha, if_pos (by norm_num)]
    norm_num
  have hr1 : orbit_radius 1 = 5 := by
    rw [orbit_radius, if_neg (by norm_num), if_neg (by norm_num)]
    norm_num
  have hrhalf : orbit_radius (1 / 2) = 25 := by
    rw [orbit_radius, if_neg (by norm_num), if_pos (by norm_num)]
  refine ⟨by rw [orbit_radius, if_pos (by norm_num)]; norm_num,
          by rw [blob_size, if_pos (by norm_num)]; norm_num,
          ?_, ?_, ha, ?_, hr1, by rw [hr1, hrhalf]; norm_num⟩
  · rw [orbit_radius]
    split_ifs with hb1 hb2
    · have e : 80 * (1 - t / (2 / 5)) = 80 - 200 * t := by ring
      rw [e]; linarith
    · norm_num
    · have e : 25 * (1 - (t - 7 / 10) / (3 / 10) * (4 / 5))
          = 25 - (200 * t - 140) / 3 := by ring
      rw [e]
      push_neg at hb2
      have : (0 : ℚ) ≤ (200 * t - 140) / 3 := by
        apply div_nonneg _ (by norm_num)
        linarith
      linarith
  · rw [blob_size]
    split_ifs with hb1 hb2
    · have e : 8 * (t / (2 / 5)) = 20 * t := by ring
      rw [e]; linarith
    · push_neg at hb1
      have e : 8 + 8 * ((t - 2 / 5) / (3 / 10)) = 8 + (80 * t - 32) / 3 := by
        ring
      rw [e]
      have : (0 : ℚ) ≤ (80 * t - 32) / 3 := by
        apply div_nonneg _ (by norm_num)
        linarith
      linarith
    · push_neg at hb2
      have e : 16 + 30 * ((t - 7 / 10) / (3 / 10)) = 16 + (100 * t - 70) := by
        ring
      rw [e]
      linarith
  · rw [boot_text_color, ha]
    norm_num [GRADIENT_PRIMARY_hi]

/-- Witness for `boot_sequence_endpoints` at `t = 1/2`. -/
theorem boot_sequence_endpoints_witness :
    orbit_radius 0 = 80 ∧
    blob_size 0 = 0 ∧
    orbit_radius (1 / 2) ≤ 80 ∧
    0 ≤ blob_size (1 / 2) ∧
    boot_text_alpha 1 = some 1 ∧
    boot_text_color 1 = some GRADIENT_PRIMARY_hi ∧
    orbit_radius 1 = 5 ∧
    orbit_radius 1 < orbit_radius (1 / 2) :=
  boot_sequence_endpoints (1 / 2) (by norm_num) (by norm_num)

/-! Network history scaling

Masterpiece `main` line 1031 and redesigned `main` line 592 append
`min(100, net_speed_kb / 10)` to the network history; `new-dashboard.py`
`get_system_stats` (lines 243-253) instead appends the raw
`bytes_per_sec / 1024` figure with no cap, computing `bytes_per_sec`
from the previous *chart value* and `UPDATE_INTERVAL = 0.5`
(`HISTORY_SIZE = 60` in that variant). -/

/-- The network value appended per tick in the masterpiece and
redesigned variants. -/
def net_history_value (net_speed_kb : ℚ) : ℚ :=
  min 100 (net_speed_kb / 10)

def HISTORY_SIZE_nd : Nat := 60

def UPDATE_INTERVAL_nd : ℚ := 1 / 2

/-- The network-history update of `new-dashboard.py` lines 243-253: when
the history is non-empty, `last_bytes = network_history[-1]`,
`bytes_per_sec = (current_bytes - last_bytes) / UPDATE_INTERVAL`, and
`bytes_per_sec / 1024` is appended; an empty history appends 0.  (The
`except` path of the surrounding `try` also appends 0.) -/
def newdash_net_update (h : List ℚ) (current_bytes : ℚ) : List ℚ :=
  match h.getLast? with
  | some last_bytes =>
      push HISTORY_SIZE_nd h
        ((current_bytes - last_bytes) / UPDATE_INTERVAL_nd / 1024)
  | none => push HISTORY_SIZE_nd h 0

/-- C9 counterexample: in the cited `new-dashboard.py` update, one poll
tick with cumulative counters at 1048576000 bytes and previous chart
value 0 stores 2048000 in the network history — far outside the claimed
`[0, 100]` chart domain (that variant appends the raw KB/s figure,
uncapped). -/
theorem network_value_exceeds_domain_counterexample :
    newdash_net_update [0] 1048576000 = [0, 2048000] ∧
    (100 : ℚ) < 2048000 := by
  constructor
  · norm_num [newdash_net_update, push, HISTORY_SIZE_nd, UPDATE_INTERVAL_nd]
  · norm_num

/-- C9 (amended): in the masterpiece and redesigned variants the
appended network value is `min(100, net_speed_kb / 10)`, hence never
exceeds 100 and is non-negative whenever the computed rate is
non-negative, so a buffer fed only such values stays inside `[0, 100]`;
the `new-dashboard.py` variant appends the raw KB/s figure with no cap. -/
theorem network_history_in_domain (s : ℚ) (hs : 0 ≤ s) :
    net_history_value s ≤ 100 ∧
    0 ≤ net_history_value s ∧
    net_history_value 2000 = 100 ∧
    net_history_value 500 = 50 ∧
    (∀ (c : Nat), 1 ≤ c → ∀ (rates : List ℚ), (∀ r ∈ rates, 0 ≤ r) →
      ∀ v ∈ pushAll c [] (rates.map net_history_value),
        0 ≤ v ∧ v ≤ 100) := by
  refine ⟨min_le_left _ _,
          le_min (by norm_num) (div_nonneg hs (by norm_num)),
          by norm_num [net_history_value],
          by norm_num [net_history_value],
          ?_⟩
  intro c hc rates hrates v hv
  rw [pushAll_nil_eq_lastN c hc] at hv
  have hv2 : v ∈ rates.map net_history_value :=
    List.drop_subset _ _ hv
  rcases List.mem_map.mp hv2 with ⟨r, hr, hrv⟩
  subst hrv
  have hr0 : (0 : ℚ) ≤ r := hrates r hr
  exact ⟨le_min (by norm_num) (div_nonneg hr0 (by norm_num)),
         min_le_left _ _⟩

/-- Witness for `network_history_in_domain` at a 500 KB/s rate. -/
theorem network_history_in_domain_witness :
    net_history_value 500 ≤ 100 ∧
    0 ≤ net_history_value 500 ∧
    net_history_value 2000 = 100 ∧
    net_history_value 500 = 50 ∧
    (∀ (c : Nat), 1 ≤ c → ∀ (rates : List ℚ), (∀ r ∈ rates, 0 ≤ r) →
      ∀ v ∈ pushAll c [] (rates.map net_history_value),
        0 ≤ v ∧ v ≤ 100) :=
  network_history_in_domain 500 (by norm_num)
